import Mathlib

/-
Verification of the NexusAPI asynchronous job pipeline.

Shallow embedding of:
  - the credit ledger   (app/services/credit_service.py, app/models/credit.py)
  - the job ledger      (app/services/job_service.py, app/models/job.py)
  - the worker          (app/worker.py)
  - the rate limiter    (app/services/rate_limiter.py)
  - the webhook sender  (app/services/webhook_service.py)

Database tables are modelled as lists of records; the uniquely keyed
lookups (SELECT ... WHERE id = ...) become List.find?.  Wall-clock times
are passed in explicitly as naturals / integers.
-/

namespace NexusAPI

/-! ## Credit ledger (app/models/credit.py, app/services/credit_service.py) -/

/-- TransactionType enum from app/models/credit.py. -/
inductive TransactionType where
  | deduction
  | refund
deriving DecidableEq, Repr

/-- One row of the org_credits table.  `organisation_id` carries a UNIQUE
constraint in the source model. -/
structure OrgCredit where
  organisationId : Nat
  balance : Int
deriving DecidableEq, Repr

/-- One row of the credit_transactions table. -/
structure CreditTransaction where
  organisationId : Nat
  amount : Int
  txType : TransactionType
  jobId : Option Nat
  descr : String
deriving DecidableEq, Repr

/-- The credit-ledger portion of the database: the org_credits table and the
append-only credit_transactions table. -/
structure CreditState where
  accounts : List OrgCredit
  transactions : List CreditTransaction
deriving DecidableEq, Repr

/-- SELECT the (unique) account row of an organisation. -/
def findAccount (l : List OrgCredit) (org : Nat) : Option OrgCredit :=
  l.find? (fun c => c.organisationId == org)

/-- CreditService.get_credit_record. -/
def getCreditRecord (s : CreditState) (org : Nat) : Option OrgCredit :=
  findAccount s.accounts org

/-- CreditService.get_balance: 0 if no account row exists. -/
def getBalance (s : CreditState) (org : Nat) : Int :=
  match getCreditRecord s org with
  | some c => c.balance
  | none => 0

/-- CreditService.create_credit: inserts a fresh account row. -/
def createCredit (s : CreditState) (org : Nat) (initialBalance : Int) : CreditState :=
  { s with accounts := s.accounts ++ [⟨org, initialBalance⟩] }

/-- CreditService.deduct_credits: returns False (no mutation) when the account
is missing or `balance < amount`; otherwise decrements the balance and appends
one DEDUCTION transaction, all committed together. -/
def deductCredits (s : CreditState) (org : Nat) (amount : Int)
    (jobId : Option Nat) (descr : String) : Bool × CreditState :=
  match getCreditRecord s org with
  | none => (false, s)
  | some credit =>
    if credit.balance < amount then
      (false, s)
    else
      (true,
        { accounts := s.accounts.map (fun c =>
            if c.organisationId = org then { c with balance := c.balance - amount } else c),
          transactions := s.transactions ++
            [⟨org, amount, TransactionType.deduction, jobId, descr⟩] })

/-- CreditService.refund_credits: returns False when the account is missing;
otherwise increments the balance and appends one REFUND transaction. -/
def refundCredits (s : CreditState) (org : Nat) (amount : Int)
    (jobId : Option Nat) (descr : String) : Bool × CreditState :=
  match getCreditRecord s org with
  | none => (false, s)
  | some _ =>
    (true,
      { accounts := s.accounts.map (fun c =>
          if c.organisationId = org then { c with balance := c.balance + amount } else c),
        transactions := s.transactions ++
          [⟨org, amount, TransactionType.refund, jobId, descr⟩] })

/-- Signed contribution of a transaction to the reconciliation sum:
DEDUCTION negative, REFUND positive. -/
def signedAmount (t : CreditTransaction) : Int :=
  match t.txType with
  | TransactionType.deduction => -t.amount
  | TransactionType.refund => t.amount

/-- Sum of signed transaction amounts recorded for one organisation. -/
def signedSum (org : Nat) (txns : List CreditTransaction) : Int :=
  ((txns.filter (fun t => t.organisationId == org)).map signedAmount).sum

/-! ### List-lookup helper lemmas -/

theorem findAccount_map_self (l : List OrgCredit) (org : Nat) (f : OrgCredit → OrgCredit)
    (hf : ∀ c, (f c).organisationId = c.organisationId) :
    findAccount (l.map (fun c => if c.organisationId = org then f c else c)) org
      = (findAccount l org).map f := by
  induction l with
  | nil => rfl
  | cons x xs ih =>
    by_cases hx : x.organisationId = org
    · simp only [findAccount, List.map_cons, if_pos hx]
      rw [List.find?_cons_of_pos _ (by simp [hf, hx]),
        List.find?_cons_of_pos _ (by simp [hx])]
      rfl
    · simp only [findAccount, List.map_cons, if_neg hx]
      rw [List.find?_cons_of_neg _ (by simp [hx]),
        List.find?_cons_of_neg _ (by simp [hx])]
      exact ih

theorem findAccount_map_other (l : List OrgCredit) (org org' : Nat) (f : OrgCredit → OrgCredit)
    (hf : ∀ c, (f c).organisationId = c.organisationId) (h : org' ≠ org) :
    findAccount (l.map (fun c => if c.organisationId = org then f c else c)) org'
      = findAccount l org' := by
  induction l with
  | nil => rfl
  | cons x xs ih =>
    by_cases hx : x.organisationId = org
    · simp only [findAccount, List.map_cons, if_pos hx]
      rw [List.find?_cons_of_neg _ (by simp [hf, hx]; omega),
        List.find?_cons_of_neg _ (by simp [hx]; omega)]
      exact ih
    · simp only [findAccount, List.map_cons, if_neg hx]
      by_cases hx' : x.organisationId = org'
      · rw [List.find?_cons_of_pos _ (by simp [hx']),
          List.find?_cons_of_pos _ (by simp [hx'])]
      · rw [List.find?_cons_of_neg _ (by simp [hx']),
          List.find?_cons_of_neg _ (by simp [hx'])]
        exact ih

theorem findAccount_append (l₁ l₂ : List OrgCredit) (org : Nat) :
    findAccount (l₁ ++ l₂) org = (findAccount l₁ org).or (findAccount l₂ org) :=
  List.find?_append

theorem signedSum_append_single (org : Nat) (txns : List CreditTransaction)
    (t : CreditTransaction) :
    signedSum org (txns ++ [t])
      = signedSum org txns + (if t.organisationId = org then signedAmount t else 0) := by
  by_cases ht : t.organisationId = org
  · simp [signedSum, List.filter_append, ht]
  · simp [signedSum, List.filter_append, ht]

/-! ### Claims C4 and C10: deduct_credits -/

theorem deductCredits_success (s : CreditState) (org : Nat) (amount : Int)
    (jobId : Option Nat) (descr : String) (c : OrgCredit)
    (hc : getCreditRecord s org = some c) (hle : amount ≤ c.balance) :
    (deductCredits s org amount jobId descr).1 = true
    ∧ getCreditRecord (deductCredits s org amount jobId descr).2 org
        = some { c with balance := c.balance - amount }
    ∧ (deductCredits s org amount jobId descr).2.transactions
        = s.transactions ++ [⟨org, amount, TransactionType.deduction, jobId, descr⟩]
    ∧ (∀ org', org' ≠ org →
        getCreditRecord (deductCredits s org amount jobId descr).2 org'
          = getCreditRecord s org') := by
  have hnlt : ¬ c.balance < amount := not_lt.mpr hle
  refine ⟨by simp [deductCredits, hc, hnlt], ?_, by simp [deductCredits, hc, hnlt], ?_⟩
  · simp only [deductCredits, hc, hnlt, if_false]
    have := findAccount_map_self s.accounts org
      (fun c => { c with balance := c.balance - amount }) (fun _ => rfl)
    simp only [getCreditRecord] at hc ⊢
    rw [this, hc]
    rfl
  · intro org' h'
    simp only [deductCredits, hc, hnlt, if_false]
    have := findAccount_map_other s.accounts org org'
      (fun c => { c with balance := c.balance - amount }) (fun _ => rfl) h'
    simp only [getCreditRecord]
    exact this

/-- C4: deduct_credits returns failure and leaves balance and transaction log
unchanged when the account is missing or `balance < amount`; otherwise it
decrements the balance by `amount` and appends exactly one DEDUCTION
transaction, with no partial state and no effect on other organisations. -/
theorem deduct_credits_atomic (s : CreditState) (org : Nat) (amount : Int)
    (jobId : Option Nat) (descr : String) :
    (getCreditRecord s org = none → deductCredits s org amount jobId descr = (false, s))
    ∧ (∀ c, getCreditRecord s org = some c → c.balance < amount →
        deductCredits s org amount jobId descr = (false, s))
    ∧ (∀ c, getCreditRecord s org = some c → amount ≤ c.balance →
        (deductCredits s org amount jobId descr).1 = true
        ∧ getCreditRecord (deductCredits s org amount jobId descr).2 org
            = some { c with balance := c.balance - amount }
        ∧ (deductCredits s org amount jobId descr).2.transactions
            = s.transactions ++ [⟨org, amount, TransactionType.deduction, jobId, descr⟩]
        ∧ (∀ org', org' ≠ org →
            getCreditRecord (deductCredits s org amount jobId descr).2 org'
              = getCreditRecord s org')) := by
  refine ⟨?_, ?_, ?_⟩
  · intro h
    simp [deductCredits, h]
  · intro c hc hlt
    simp [deductCredits, hc, hlt]
  · intro c hc hle
    exact deductCredits_success s org amount jobId descr c hc hle

/-- Witness for C4 at a concrete ledger state. -/
theorem deduct_credits_atomic_witness :
    (deductCredits ⟨[⟨1, 50⟩], []⟩ 1 20 none "w").1 = true
    ∧ (deductCredits ⟨[⟨1, 50⟩], []⟩ 1 20 none "w").2.transactions
        = [⟨1, 20, TransactionType.deduction, none, "w"⟩]
    ∧ getCreditRecord (deductCredits ⟨[⟨1, 50⟩], []⟩ 1 20 none "w").2 1 = some ⟨1, 30⟩ := by
  have h := (deduct_credits_atomic ⟨[⟨1, 50⟩], []⟩ 1 20 none "w").2.2 ⟨1, 50⟩ rfl (by decide)
  exact ⟨h.1, by simpa using h.2.2.1, by simpa using h.2.1⟩

/-- C10: deduct_credits does not validate that the amount is positive: on an
existing account with non-negative balance and a negative amount, the balance
check passes, the call succeeds, the balance strictly increases by the
absolute value of the amount, and a DEDUCTION transaction with a negative
amount is appended. -/
theorem deduct_credits_negative (s : CreditState) (org : Nat) (amount : Int)
    (jobId : Option Nat) (descr : String) (c : OrgCredit)
    (hc : getCreditRecord s org = some c) (hbal : 0 ≤ c.balance) (hneg : amount < 0) :
    (deductCredits s org amount jobId descr).1 = true
    ∧ getCreditRecord (deductCredits s org amount jobId descr).2 org
        = some { c with balance := c.balance - amount }
    ∧ c.balance - amount = c.balance + |amount|
    ∧ c.balance < c.balance - amount
    ∧ (deductCredits s org amount jobId descr).2.transactions
        = s.transactions ++ [⟨org, amount, TransactionType.deduction, jobId, descr⟩] := by
  have hle : amount ≤ c.balance := le_trans (le_of_lt hneg) hbal
  have h := deductCredits_success s org amount jobId descr c hc hle
  refine ⟨h.1, h.2.1, ?_, by omega, h.2.2.1⟩
  rw [abs_of_neg hneg]
  ring

/-- Witness for C10: deducting -5 from a balance of 50 succeeds and raises the
balance to 55. -/
theorem deduct_credits_negative_witness :
    (deductCredits ⟨[⟨1, 50⟩], []⟩ 1 (-5) none "w").1 = true
    ∧ getCreditRecord (deductCredits ⟨[⟨1, 50⟩], []⟩ 1 (-5) none "w").2 1 = some ⟨1, 55⟩ := by
  have h := deduct_credits_negative ⟨[⟨1, 50⟩], []⟩ 1 (-5) none "w" ⟨1, 50⟩ rfl
    (by decide) (by decide)
  refine ⟨h.1, ?_⟩
  have h2 := h.2.1
  norm_num at h2
  exact h2

/-! ### Claim C5: reconciliation invariant over operation sequences -/

/-- The credit-ledger operations reachable through the service layer. -/
inductive CreditOp where
  | createAccount (org : Nat) (init : Int)
  | deduct (org : Nat) (amount : Int) (jobId : Option Nat) (descr : String)
  | refund (org : Nat) (amount : Int) (jobId : Option Nat) (descr : String)

/-- State transition of one ledger operation.  `organisation_id` is UNIQUE in
the org_credits table, so a second INSERT for the same organisation is
rejected by the database and leaves the state unchanged. -/
def runCreditOp (s : CreditState) : CreditOp → CreditState
  | CreditOp.createAccount org init =>
    match getCreditRecord s org with
    | some _ => s
    | none => createCredit s org init
  | CreditOp.deduct org amount jobId descr => (deductCredits s org amount jobId descr).2
  | CreditOp.refund org amount jobId descr => (refundCredits s org amount jobId descr).2

def runCreditOps (s : CreditState) : List CreditOp → CreditState
  | [] => s
  | op :: rest => runCreditOps (runCreditOp s op) rest

/-- Initial balance seeded by an operation without a matching transaction:
only an effective createAccount contributes. -/
def seedContrib (s : CreditState) (op : CreditOp) (org : Nat) : Int :=
  match op with
  | CreditOp.createAccount o init =>
    if o = org ∧ getCreditRecord s o = none then init else 0
  | _ => 0

/-- Total balance seeded without transactions along an operation sequence. -/
def seededInit (org : Nat) : CreditState → List CreditOp → Int
  | _, [] => 0
  | s, op :: rest => seedContrib s op org + seededInit org (runCreditOp s op) rest

theorem runCreditOp_balance (s : CreditState) (op : CreditOp) (org : Nat) :
    getBalance (runCreditOp s op) org
      = getBalance s org + seedContrib s op org
        + (signedSum org (runCreditOp s op).transactions - signedSum org s.transactions) := by
  cases op with
  | createAccount o init =>
    cases hrec : getCreditRecord s o with
    | some c =>
      simp [runCreditOp, seedContrib, hrec]
    | none =>
      have hrec' : findAccount s.accounts o = none := hrec
      by_cases ho : o = org
      · subst ho
        simp only [runCreditOp, getCreditRecord, hrec', seedContrib, createCredit,
          getBalance]
        rw [findAccount_append, hrec']
        have hone : findAccount [(⟨o, init⟩ : OrgCredit)] o = some ⟨o, init⟩ := by
          simp [findAccount]
        rw [hone]
        simp [hrec']
      · simp only [runCreditOp, getCreditRecord, hrec', seedContrib, createCredit,
          getBalance]
        rw [findAccount_append]
        have hone : findAccount [(⟨o, init⟩ : OrgCredit)] org = none := by
          simp [findAccount, ho]
        rw [hone]
        simp [ho]
  | deduct o amount jobId descr =>
    cases hrec : getCreditRecord s o with
    | none =>
      simp [runCreditOp, deductCredits, hrec, seedContrib]
    | some c =>
      by_cases hlt : c.balance < amount
      · simp [runCreditOp, deductCredits, hrec, hlt, seedContrib]
      · simp only [runCreditOp, deductCredits, hrec, hlt, if_false, seedContrib]
        rw [signedSum_append_single]
        by_cases ho : o = org
        · subst ho
          have hself := findAccount_map_self s.accounts o
            (fun c => { c with balance := c.balance - amount }) (fun _ => rfl)
          simp only [getBalance, getCreditRecord] at *
          rw [hself, hrec]
          simp only [Option.map_some', signedAmount]
          split_ifs with hif
          · omega
          · exact absurd trivial hif
        · have hoth := findAccount_map_other s.accounts o org
            (fun c => { c with balance := c.balance - amount }) (fun _ => rfl)
            (fun h => ho h.symm)
          simp only [getBalance, getCreditRecord] at *
          rw [hoth]
          simp [ho]
  | refund o amount jobId descr =>
    cases hrec : getCreditRecord s o with
    | none =>
      simp [runCreditOp, refundCredits, hrec, seedContrib]
    | some c =>
      simp only [runCreditOp, refundCredits, hrec, seedContrib]
      rw [signedSum_append_single]
      by_cases ho : o = org
      · subst ho
        have hself := findAccount_map_self s.accounts o
          (fun c => { c with balance := c.balance + amount }) (fun _ => rfl)
        simp only [getBalance, getCreditRecord] at *
        rw [hself, hrec]
        simp only [Option.map_some', signedAmount]
        split_ifs with hif
        · omega
        · exact absurd trivial hif
      · have hoth := findAccount_map_other s.accounts o org
          (fun c => { c with balance := c.balance + amount }) (fun _ => rfl)
          (fun h => ho h.symm)
        simp only [getBalance, getCreditRecord] at *
        rw [hoth]
        simp [ho]

theorem runCreditOps_balance (ops : List CreditOp) : ∀ (s : CreditState) (org : Nat),
    getBalance (runCreditOps s ops) org
      = getBalance s org + seededInit org s ops
        + (signedSum org (runCreditOps s ops).transactions - signedSum org s.transactions) := by
  induction ops with
  | nil =>
    intro s org
    simp [runCreditOps, seededInit]
  | cons op rest ih =>
    intro s org
    have h1 := runCreditOp_balance s op org
    have h2 := ih (runCreditOp s op) org
    simp only [runCreditOps, seededInit]
    omega

/-- C5 counterexample: createAccount with a non-zero initial balance seeds the
balance without any transaction, so the balance does not equal the signed
transaction sum. -/
theorem credit_reconciliation_cex :
    getBalance (runCreditOps ⟨[], []⟩ [CreditOp.createAccount 1 100]) 1 = 100
    ∧ signedSum 1 (runCreditOps ⟨[], []⟩ [CreditOp.createAccount 1 100]).transactions = 0
    ∧ getBalance (runCreditOps ⟨[], []⟩ [CreditOp.createAccount 1 100]) 1
        ≠ signedSum 1 (runCreditOps ⟨[], []⟩ [CreditOp.createAccount 1 100]).transactions := by
  exact ⟨rfl, rfl, by decide⟩

/-- C5 amended: after any sequence of createAccount / deduct / refund
operations from the empty ledger, every organisation's balance equals the
initial balance seeded at account creation plus the sum of signed transaction
amounts (DEDUCTION negative, REFUND positive) recorded for it. -/
theorem credit_balance_reconciliation (ops : List CreditOp) (org : Nat) :
    getBalance (runCreditOps ⟨[], []⟩ ops) org
      = seededInit org ⟨[], []⟩ ops
        + signedSum org (runCreditOps ⟨[], []⟩ ops).transactions := by
  have h := runCreditOps_balance ops ⟨[], []⟩ org
  have h0 : getBalance ⟨[], []⟩ org = 0 := rfl
  have h1 : signedSum org (⟨[], []⟩ : CreditState).transactions = 0 := rfl
  omega

/-! ## Job ledger (app/models/job.py, app/services/job_service.py) -/

/-- JobStatus enum from app/models/job.py. -/
inductive JobStatus where
  | pending
  | running
  | completed
  | failed
deriving DecidableEq, Repr

/-- JobType enum from app/models/job.py. -/
inductive JobType where
  | summarize
  | analyze
deriving DecidableEq, Repr

/-- Parsed JSON input_data of a job.  The routes store `{"text": ..,
"credits": ..}` and the worker reads the fields with
`input_data.get("text", "")` and `input_data.get("credits", 0)`. -/
structure JobInput where
  text : String
  credits : Int
deriving DecidableEq, Repr

/-- Parsed JSON output_data of a job.  On a summarize cache hit the worker
writes `{"summary": .., "cached": true}`; on a compute path just
`{"summary": ..}` (no cached key, modelled as `none`). -/
inductive JobOutput where
  | summaryOut (summary : String) (cached : Option Bool)
  | analysisOut (analysis : String)
deriving DecidableEq, Repr

/-- One row of the jobs table. -/
structure Job where
  id : Nat
  orgId : Nat
  userId : Nat
  jobType : JobType
  status : JobStatus
  inputData : JobInput
  outputData : Option JobOutput
  errorMessage : Option String
  startedAt : Option Nat
  completedAt : Option Nat
  attemptCount : Nat
deriving DecidableEq, Repr

/-- JobService.get_job_by_id: SELECT by primary key. -/
def getJobById (jobs : List Job) (jid : Nat) : Option Job :=
  jobs.find? (fun j => j.id == jid)

/-- Committing a mutation of the (unique) row with id `jid`. -/
def replaceJob (jobs : List Job) (jid : Nat) (j' : Job) : List Job :=
  jobs.map (fun j => if j.id = jid then j' else j)

/-- JobService.create_job: inserts a new PENDING job with attempt_count 0. -/
def createJob (jobs : List Job) (newId orgId userId : Nat) (jobType : JobType)
    (input : JobInput) : Job × List Job :=
  let job : Job :=
    ⟨newId, orgId, userId, jobType, JobStatus.pending, input, none, none, none, none, 0⟩
  (job, jobs ++ [job])

/-- JobService.claim_job: returns None (and mutates nothing) unless the job
exists and its status is exactly PENDING; otherwise sets RUNNING, started_at
and increments attempt_count. -/
def claimJob (jobs : List Job) (jid now : Nat) : Option Job × List Job :=
  match getJobById jobs jid with
  | none => (none, jobs)
  | some job =>
    if job.status ≠ JobStatus.pending then
      (none, jobs)
    else
      let j' := { job with
          status := JobStatus.running
          startedAt := some now
          attemptCount := job.attemptCount + 1 }
      (some j', replaceJob jobs jid j')

/-- JobService.complete_job: no status check — any existing job is set to
COMPLETED with output and completed_at. -/
def completeJob (jobs : List Job) (jid : Nat) (output : JobOutput) (now : Nat) :
    Option Job × List Job :=
  match getJobById jobs jid with
  | none => (none, jobs)
  | some job =>
    let j' := { job with
        status := JobStatus.completed
        outputData := some output
        completedAt := some now }
    (some j', replaceJob jobs jid j')

/-- JobService.fail_job: no status or attempt_count check — any existing job
is set to FAILED with error_message and completed_at. -/
def failJob (jobs : List Job) (jid : Nat) (e : String) (now : Nat) :
    Option Job × List Job :=
  match getJobById jobs jid with
  | none => (none, jobs)
  | some job =>
    let j' := { job with
        status := JobStatus.failed
        errorMessage := some e
        completedAt := some now }
    (some j', replaceJob jobs jid j')

/-! ### Job-lookup helper lemmas -/

theorem getJobById_some_id (jobs : List Job) (jid : Nat) (j : Job)
    (h : getJobById jobs jid = some j) : j.id = jid := by
  have := List.find?_some h
  simpa using this

theorem getJobById_replace_self (jobs : List Job) (jid : Nat) (j' : Job)
    (hid : j'.id = jid) :
    getJobById (replaceJob jobs jid j') jid = (getJobById jobs jid).map (fun _ => j') := by
  induction jobs with
  | nil => rfl
  | cons x xs ih =>
    by_cases hx : x.id = jid
    · simp only [getJobById, replaceJob, List.map_cons, if_pos hx]
      rw [List.find?_cons_of_pos _ (by simp [hid]), List.find?_cons_of_pos _ (by simp [hx])]
      rfl
    · simp only [getJobById, replaceJob, List.map_cons, if_neg hx]
      rw [List.find?_cons_of_neg _ (by simp [hx]), List.find?_cons_of_neg _ (by simp [hx])]
      exact ih

theorem getJobById_replace_other (jobs : List Job) (jid k : Nat) (j' : Job)
    (hid : j'.id = jid) (hk : k ≠ jid) :
    getJobById (replaceJob jobs jid j') k = getJobById jobs k := by
  induction jobs with
  | nil => rfl
  | cons x xs ih =>
    by_cases hx : x.id = jid
    · simp only [getJobById, replaceJob, List.map_cons, if_pos hx]
      rw [List.find?_cons_of_neg _ (by simp [hid]; omega),
        List.find?_cons_of_neg _ (by simp [hx]; omega)]
      exact ih
    · simp only [getJobById, replaceJob, List.map_cons, if_neg hx]
      by_cases hx' : x.id = k
      · rw [List.find?_cons_of_pos _ (by simp [hx']),
          List.find?_cons_of_pos _ (by simp [hx'])]
      · rw [List.find?_cons_of_neg _ (by simp [hx']),
          List.find?_cons_of_neg _ (by simp [hx'])]
        exact ih

theorem getJobById_append (l₁ l₂ : List Job) (jid : Nat) :
    getJobById (l₁ ++ l₂) jid = (getJobById l₁ jid).or (getJobById l₂ jid) :=
  List.find?_append

/-! ### Claim C7: claim_job -/

/-- C7: claim_job transitions a job from PENDING to RUNNING only when its
status is exactly PENDING, setting started_at and incrementing attempt_count
by one; on a missing or non-PENDING job it returns None ("not claimed") and
mutates nothing. -/
theorem claim_job_spec (jobs : List Job) (jid now : Nat) :
    (getJobById jobs jid = none → claimJob jobs jid now = (none, jobs))
    ∧ (∀ job, getJobById jobs jid = some job → job.status ≠ JobStatus.pending →
        claimJob jobs jid now = (none, jobs))
    ∧ (∀ job, getJobById jobs jid = some job → job.status = JobStatus.pending →
        (claimJob jobs jid now).1
            = some { job with
                status := JobStatus.running
                startedAt := some now
                attemptCount := job.attemptCount + 1 }
        ∧ getJobById (claimJob jobs jid now).2 jid
            = some { job with
                status := JobStatus.running
                startedAt := some now
                attemptCount := job.attemptCount + 1 }
        ∧ (∀ k, k ≠ jid → getJobById (claimJob jobs jid now).2 k = getJobById jobs k)) := by
  refine ⟨?_, ?_, ?_⟩
  · intro h
    simp [claimJob, h]
  · intro job h hs
    simp [claimJob, h, hs]
  · intro job h hs
    have hid : job.id = jid := getJobById_some_id jobs jid job h
    have hns : ¬ job.status ≠ JobStatus.pending := by simp [hs]
    refine ⟨by simp [claimJob, h, hns], ?_, ?_⟩
    · simp only [claimJob, h, if_neg hns]
      rw [getJobById_replace_self jobs jid _ (by simpa using hid), h]
      rfl
    · intro k hk
      simp only [claimJob, h, if_neg hns]
      exact getJobById_replace_other jobs jid k _ (by simpa using hid) hk

/-- Witness for C7: a PENDING job is claimed (RUNNING, attempt_count 1), and a
RUNNING job is not claimed and nothing changes. -/
theorem claim_job_spec_witness :
    (claimJob [⟨1, 1, 1, JobType.summarize, JobStatus.pending, ⟨"t", 10⟩,
        none, none, none, none, 0⟩] 1 7).1
      = some ⟨1, 1, 1, JobType.summarize, JobStatus.running, ⟨"t", 10⟩,
          none, none, some 7, none, 1⟩
    ∧ claimJob [⟨2, 1, 1, JobType.summarize, JobStatus.running, ⟨"t", 10⟩,
        none, none, some 3, none, 1⟩] 2 7
      = (none, [⟨2, 1, 1, JobType.summarize, JobStatus.running, ⟨"t", 10⟩,
          none, none, some 3, none, 1⟩]) := by
  constructor
  · exact ((claim_job_spec [⟨1, 1, 1, JobType.summarize, JobStatus.pending, ⟨"t", 10⟩,
      none, none, none, none, 0⟩] 1 7).2.2 _ rfl rfl).1
  · exact (claim_job_spec [⟨2, 1, 1, JobType.summarize, JobStatus.running, ⟨"t", 10⟩,
      none, none, some 3, none, 1⟩] 2 7).2.1 _ rfl (by decide)

/-! ### Claim C2: terminal states -/

/-- A FAILED (terminal) job used as the concrete counterexample state. -/
def cexTerminalJob : Job :=
  ⟨1, 1, 1, JobType.summarize, JobStatus.failed, ⟨"t", 10⟩, none, some "boom",
    some 3, some 5, 3⟩

/-- C2 counterexample: complete_job performs no status check, so applying it
to a FAILED (terminal) job changes the status to COMPLETED — a transition out
of a terminal state. -/
theorem terminal_not_monotone_cex :
    cexTerminalJob.status = JobStatus.failed
    ∧ (getJobById (completeJob [cexTerminalJob] 1 (JobOutput.summaryOut "s" none) 9).2 1).map
        (fun j => j.status) = some JobStatus.completed
    ∧ JobStatus.completed ≠ JobStatus.failed :=
  ⟨rfl, by decide, by decide⟩

/-- C2 amended: terminal states are preserved by create_job and claim_job
(claim is a no-op on any non-PENDING job), but complete_job and fail_job
perform no status check and overwrite the status of an existing job whatever
its current state, including terminal ones. -/
theorem terminal_states_amended (jobs : List Job) (i : Nat) (j : Job)
    (hfind : getJobById jobs i = some j)
    (hterm : j.status = JobStatus.completed ∨ j.status = JobStatus.failed) :
    (∀ jid now, getJobById (claimJob jobs jid now).2 i = some j)
    ∧ (∀ newId orgId userId jt input,
        getJobById (createJob jobs newId orgId userId jt input).2 i = some j)
    ∧ (∀ output now, getJobById (completeJob jobs i output now).2 i
        = some { j with
            status := JobStatus.completed
            outputData := some output
            completedAt := some now })
    ∧ (∀ e now, getJobById (failJob jobs i e now).2 i
        = some { j with
            status := JobStatus.failed
            errorMessage := some e
            completedAt := some now }) := by
  have hid : j.id = i := getJobById_some_id jobs i j hfind
  refine ⟨?_, ?_, ?_, ?_⟩
  · intro jid now
    by_cases hji : jid = i
    · subst hji
      have hns : j.status ≠ JobStatus.pending := by
        rcases hterm with h | h <;> simp [h]
      simp [claimJob, hfind, hns]
    · cases hfind2 : getJobById jobs jid with
      | none => simp [claimJob, hfind2, hfind]
      | some job2 =>
        by_cases hs2 : job2.status = JobStatus.pending
        · have hid2 : job2.id = jid := getJobById_some_id jobs jid job2 hfind2
          have hns2 : ¬ job2.status ≠ JobStatus.pending := by simp [hs2]
          simp only [claimJob, hfind2, if_neg hns2]
          rw [getJobById_replace_other jobs jid i _ (by simpa using hid2)
            (fun hcon => hji hcon.symm)]
          exact hfind
        · simp [claimJob, hfind2, hs2, hfind]
  · intro newId orgId userId jt input
    simp only [createJob, getJobById_append, hfind]
    rfl
  · intro output now
    simp only [completeJob, hfind]
    rw [getJobById_replace_self jobs i _ (by simpa using hid), hfind]
    rfl
  · intro e now
    simp only [failJob, hfind]
    rw [getJobById_replace_self jobs i _ (by simpa using hid), hfind]
    rfl

/-- Witness for the amended C2 at a concrete terminal job. -/
theorem terminal_states_amended_witness :
    getJobById (claimJob [cexTerminalJob] 1 7).2 1 = some cexTerminalJob
    ∧ getJobById (failJob [cexTerminalJob] 1 "again" 9).2 1
        = some { cexTerminalJob with
            status := JobStatus.failed
            errorMessage := some "again"
            completedAt := some 9 } := by
  have h := terminal_states_amended [cexTerminalJob] 1 cexTerminalJob rfl (Or.inr rfl)
  exact ⟨h.1 1 7, h.2.2.2 "again" 9⟩

/-! ### Claim C3: fail_job vs the retry path -/

/-- A RUNNING job on its first attempt, used as the concrete counterexample
state for fail_job. -/
def cexRunningJob : Job :=
  ⟨2, 1, 1, JobType.summarize, JobStatus.running, ⟨"t", 10⟩, none, none,
    some 3, none, 1⟩

/-- C3 counterexample: fail_job on a RUNNING job with attempt_count 1 <
max_attempts 3 still sets the status to FAILED (and completed_at), not back
to PENDING as the claim states. -/
theorem fail_job_no_retry_cex :
    cexRunningJob.attemptCount < 3
    ∧ (getJobById (failJob [cexRunningJob] 2 "boom" 9).2 2).map (fun j => j.status)
        = some JobStatus.failed
    ∧ (getJobById (failJob [cexRunningJob] 2 "boom" 9).2 2).map (fun j => j.completedAt)
        = some (some 9)
    ∧ JobStatus.failed ≠ JobStatus.pending :=
  ⟨by decide, by decide, by decide, by decide⟩

/-! ## Worker (app/worker.py) -/

/-- One redis cache entry written by set_to_cache.  The SHA-256 key
`cache:gemini:hash(job_type:text)` is modelled by the (job_type, text) pair
itself (the hash is injective on the keys in use). -/
structure CacheEntry where
  keyType : String
  text : String
  value : String
  expiresAt : Nat
deriving DecidableEq, Repr

/-- get_from_cache: the value stored under the key, provided its TTL has not
yet elapsed. -/
def cacheGet (cache : List CacheEntry) (kt text : String) (now : Nat) : Option String :=
  (cache.find? (fun e =>
    e.keyType == kt && e.text == text && decide (now < e.expiresAt))).map
    (fun e => e.value)

/-- Python truthiness of `if cached_result:` in the worker: the empty string
behaves like a miss. -/
def truthy (o : Option String) : Option String :=
  match o with
  | some v => if v = "" then none else some v
  | none => none

/-- set_to_cache: SETEX with a TTL; the newest entry shadows older ones. -/
def cacheSet (cache : List CacheEntry) (kt text value : String) (now ttl : Nat) :
    List CacheEntry :=
  ⟨kt, text, value, now + ttl⟩ :: cache

/-- One row of the organisations table, restricted to the fields the webhook
path reads. -/
structure Organisation where
  id : Nat
  webhookUrl : Option String
  webhookSecret : Option String
deriving DecidableEq, Repr

/-- One invocation of send_webhook, i.e. one delivery attempt sequence
started by trigger_job_webhook. -/
structure WebhookTrigger where
  orgId : Nat
  jobId : Nat
  payloadStatus : String
deriving DecidableEq, Repr

/-- The state visible to the worker: the jobs table, the credit ledger, the
redis cache, the organisations table, and the log of started webhook
delivery sequences. -/
structure WorkerState where
  jobs : List Job
  credits : CreditState
  cache : List CacheEntry
  orgs : List Organisation
  triggers : List WebhookTrigger
deriving DecidableEq, Repr

/-- trigger_job_webhook: silently skips when the organisation is missing or
has no configured webhook URL; otherwise starts exactly one delivery attempt
sequence. -/
def triggerJobWebhook (st : WorkerState) (orgId jobId : Nat) (payloadStatus : String) :
    WorkerState :=
  match st.orgs.find? (fun o => o.id == orgId) with
  | none => st
  | some o =>
    match o.webhookUrl with
    | none => st
    | some _ => { st with triggers := st.triggers ++ [⟨orgId, jobId, payloadStatus⟩] }

/-- Result of one worker invocation, as seen by ARQ. -/
inductive WorkerOutcome where
  | jobNotFound
  | completed (cached : Bool)
  | permanentFailure (e : String)
  | retryScheduled (delaySeconds : Nat)
  | failedReturn (e : String)
deriving DecidableEq, Repr

/-- A worker invocation: the resulting state, the returned/raised outcome,
and whether the external compute service (Gemini) was invoked. -/
structure WorkerRun where
  state : WorkerState
  outcome : WorkerOutcome
  computeCalled : Bool
deriving DecidableEq, Repr

/-- The except-branch of process_summarize_job: on the final try (job_try >=
max_tries) the job is marked FAILED with completed_at and, when the input
carries positive credits and the account exists, the balance is incremented
and one REFUND transaction appended; no webhook is triggered.  Below
max_tries the job is set back to PENDING with the error recorded and a retry
is scheduled with a 5 second delay. -/
def summarizeHandleError (st1 : WorkerState) (job1 : Job) (jid jobTry maxTries now : Nat)
    (e : String) (computeCalled : Bool) : WorkerRun :=
  if maxTries ≤ jobTry then
    let job2 := { job1 with
        status := JobStatus.failed
        errorMessage := some e
        completedAt := some now }
    let credits' :=
      if 0 < job1.inputData.credits then
        match getCreditRecord st1.credits job1.orgId with
        | some _ =>
          { accounts := st1.credits.accounts.map (fun c =>
              if c.organisationId = job1.orgId then
                { c with balance := c.balance + job1.inputData.credits } else c)
            transactions := st1.credits.transactions ++
              [⟨job1.orgId, job1.inputData.credits, TransactionType.refund, some job1.id,
                "Refund for failed job: " ++ toString jid⟩] }
        | none => st1.credits
      else st1.credits
    { state := { st1 with
        jobs := replaceJob st1.jobs jid job2
        credits := credits' }
      outcome := WorkerOutcome.permanentFailure e
      computeCalled := computeCalled }
  else
    let job2 := { job1 with status := JobStatus.pending, errorMessage := some e }
    { state := { st1 with jobs := replaceJob st1.jobs jid job2 }
      outcome := WorkerOutcome.retryScheduled 5
      computeCalled := computeCalled }

/-- process_summarize_job: sets the job RUNNING with attempt_count = job_try,
then either fails on empty text, completes from cache (output carries
cached = true, compute not invoked, no webhook), or invokes compute and on
success caches the summary for 3600 s, completes the job and triggers the
completion webhook; compute errors go to the except-branch. -/
def processSummarizeJob (jobTry maxTries jid now : Nat) (compute : Except String String)
    (st : WorkerState) : WorkerRun :=
  match getJobById st.jobs jid with
  | none =>
    { state := st, outcome := WorkerOutcome.jobNotFound, computeCalled := false }
  | some job =>
    let job1 := { job with
        status := JobStatus.running
        startedAt := some now
        attemptCount := jobTry }
    let st1 := { st with jobs := replaceJob st.jobs jid job1 }
    if job1.inputData.text = "" then
      summarizeHandleError st1 job1 jid jobTry maxTries now "No text provided" false
    else
      match truthy (cacheGet st1.cache "summarize" job1.inputData.text now) with
      | some cachedValue =>
        let job2 := { job1 with
            status := JobStatus.completed
            outputData := some (JobOutput.summaryOut cachedValue (some true))
            completedAt := some now }
        { state := { st1 with jobs := replaceJob st1.jobs jid job2 }
          outcome := WorkerOutcome.completed true
          computeCalled := false }
      | none =>
        match compute with
        | Except.ok summary =>
          let st2 := { st1 with
              cache := cacheSet st1.cache "summarize" job1.inputData.text summary now 3600 }
          let job2 := { job1 with
              status := JobStatus.completed
              outputData := some (JobOutput.summaryOut summary none)
              completedAt := some now }
          let st3 := { st2 with jobs := replaceJob st2.jobs jid job2 }
          { state := triggerJobWebhook st3 job1.orgId job1.id "completed"
            outcome := WorkerOutcome.completed false
            computeCalled := true }
        | Except.error e =>
          summarizeHandleError st1 job1 jid jobTry maxTries now e true

/-- The except-branch of process_analyze_job: when the (already incremented)
attempt_count has reached 3 the job is marked FAILED with completed_at and
the failure webhook is triggered — no refund is made; otherwise the job is
set back to PENDING with the error recorded.  Both branches return a failed
result (no retry is scheduled with ARQ). -/
def analyzeHandleError (st1 : WorkerState) (job1 : Job) (jid now : Nat) (e : String)
    (computeCalled : Bool) : WorkerRun :=
  if 3 <= job1.attemptCount then
    let job2 := { job1 with
        status := JobStatus.failed
        errorMessage := some e
        completedAt := some now }
    let st2 := { st1 with jobs := replaceJob st1.jobs jid job2 }
    { state := triggerJobWebhook st2 job1.orgId job1.id "failed"
      outcome := WorkerOutcome.failedReturn e
      computeCalled := computeCalled }
  else
    let job2 := { job1 with status := JobStatus.pending, errorMessage := some e }
    { state := { st1 with jobs := replaceJob st1.jobs jid job2 }
      outcome := WorkerOutcome.failedReturn e
      computeCalled := computeCalled }

/-- process_analyze_job: sets the job RUNNING and increments attempt_count,
then — without ever consulting the cache — invokes compute; on success the
job is completed (output without any cached flag) and the completion webhook
triggered; errors go to the except-branch. -/
def processAnalyzeJob (jid now : Nat) (compute : Except String String)
    (st : WorkerState) : WorkerRun :=
  match getJobById st.jobs jid with
  | none =>
    { state := st, outcome := WorkerOutcome.jobNotFound, computeCalled := false }
  | some job =>
    let job1 := { job with
        status := JobStatus.running
        startedAt := some now
        attemptCount := job.attemptCount + 1 }
    let st1 := { st with jobs := replaceJob st.jobs jid job1 }
    if job1.inputData.text = "" then
      analyzeHandleError st1 job1 jid now "No text provided" false
    else
      match compute with
      | Except.ok analysis =>
        let job2 := { job1 with
            status := JobStatus.completed
            outputData := some (JobOutput.analysisOut analysis)
            completedAt := some now }
        let st2 := { st1 with jobs := replaceJob st1.jobs jid job2 }
        { state := triggerJobWebhook st2 job1.orgId job1.id "completed"
          outcome := WorkerOutcome.completed false
          computeCalled := true }
      | Except.error e =>
        analyzeHandleError st1 job1 jid now e true

/-! ### Claim C1: effects of a permanent failure -/

/-- Concrete worker state with a SUMMARIZE job on its last attempt, a credit
account, a prior deduction, and a configured webhook URL. -/
def cexStateSummarize : WorkerState :=
  { jobs := [⟨1, 1, 1, JobType.summarize, JobStatus.pending, ⟨"hello", 10⟩,
      none, none, none, none, 2⟩]
    credits := ⟨[⟨1, 90⟩], [⟨1, 10, TransactionType.deduction, none, "Job: SUMMARIZE"⟩]⟩
    cache := []
    orgs := [⟨1, some "https://hooks.example/in", some "s3cr3t"⟩]
    triggers := [] }

/-- Concrete worker state with an ANALYZE job on its last attempt, a credit
account, a prior deduction, and a configured webhook URL. -/
def cexStateAnalyze : WorkerState :=
  { jobs := [⟨2, 1, 1, JobType.analyze, JobStatus.pending, ⟨"hello", 25⟩,
      none, none, none, none, 2⟩]
    credits := ⟨[⟨1, 75⟩], [⟨1, 25, TransactionType.deduction, none, "Job: ANALYZE"⟩]⟩
    cache := []
    orgs := [⟨1, some "https://hooks.example/in", some "s3cr3t"⟩]
    triggers := [] }

/-- C1 counterexample: on the last attempt with a failing compute call, the
SUMMARIZE worker ends the job FAILED and appends exactly one REFUND but
starts zero failure-notification sequences (not one), while the ANALYZE
worker ends the job FAILED and starts exactly one failure-notification
sequence but appends zero REFUND transactions (not one) — even though the
organisation has a configured webhook URL and an existing credit account. -/
theorem permanent_failure_cex :
    ((getJobById (processSummarizeJob 3 3 1 5 (Except.error "boom")
        cexStateSummarize).state.jobs 1).map (fun j => j.status) = some JobStatus.failed)
    ∧ ((processSummarizeJob 3 3 1 5 (Except.error "boom")
        cexStateSummarize).state.credits.transactions.countP
        (fun t => t.txType == TransactionType.refund) = 1)
    ∧ ((processSummarizeJob 3 3 1 5 (Except.error "boom")
        cexStateSummarize).state.triggers.length = 0)
    ∧ ((processSummarizeJob 3 3 1 5 (Except.error "boom")
        cexStateSummarize).state.triggers.length ≠ 1)
    ∧ ((getJobById (processAnalyzeJob 2 5 (Except.error "boom")
        cexStateAnalyze).state.jobs 2).map (fun j => j.status) = some JobStatus.failed)
    ∧ ((processAnalyzeJob 2 5 (Except.error "boom")
        cexStateAnalyze).state.triggers.length = 1)
    ∧ ((processAnalyzeJob 2 5 (Except.error "boom")
        cexStateAnalyze).state.credits.transactions.countP
        (fun t => t.txType == TransactionType.refund) = 0)
    ∧ ((processAnalyzeJob 2 5 (Except.error "boom")
        cexStateAnalyze).state.credits.transactions.countP
        (fun t => t.txType == TransactionType.refund) ≠ 1) := by
  refine ⟨by decide, by decide, by decide, by decide, by decide, by decide, by decide,
    by decide⟩

/-! ### Worker path characterizations -/

theorem processSummarize_final_error (st : WorkerState) (jid now jobTry maxTries : Nat)
    (e : String) (job : Job) (c : OrgCredit)
    (hjob : getJobById st.jobs jid = some job)
    (htext : job.inputData.text ≠ "")
    (hcache : truthy (cacheGet st.cache "summarize" job.inputData.text now) = none)
    (hcred : 0 < job.inputData.credits)
    (hacct : getCreditRecord st.credits job.orgId = some c)
    (hge : maxTries ≤ jobTry) :
    processSummarizeJob jobTry maxTries jid now (Except.error e) st
      = { state := { st with
            jobs := replaceJob (replaceJob st.jobs jid
              { job with
                  status := JobStatus.running
                  startedAt := some now
                  attemptCount := jobTry }) jid
              { job with
                  status := JobStatus.failed
                  startedAt := some now
                  attemptCount := jobTry
                  errorMessage := some e
                  completedAt := some now }
            credits := {
              accounts := st.credits.accounts.map (fun cc =>
                if cc.organisationId = job.orgId then
                  { cc with balance := cc.balance + job.inputData.credits } else cc)
              transactions := st.credits.transactions ++
                [⟨job.orgId, job.inputData.credits, TransactionType.refund, some job.id,
                  "Refund for failed job: " ++ toString jid⟩] } }
          outcome := WorkerOutcome.permanentFailure e
          computeCalled := true } := by
  simp [processSummarizeJob, hjob, htext, hcache, hcred, hacct, summarizeHandleError, hge]

theorem processSummarize_retry_error (st : WorkerState) (jid now jobTry maxTries : Nat)
    (e : String) (job : Job)
    (hjob : getJobById st.jobs jid = some job)
    (htext : job.inputData.text ≠ "")
    (hcache : truthy (cacheGet st.cache "summarize" job.inputData.text now) = none)
    (hlt : jobTry < maxTries) :
    processSummarizeJob jobTry maxTries jid now (Except.error e) st
      = { state := { st with
            jobs := replaceJob (replaceJob st.jobs jid
              { job with
                  status := JobStatus.running
                  startedAt := some now
                  attemptCount := jobTry }) jid
              { job with
                  status := JobStatus.pending
                  startedAt := some now
                  attemptCount := jobTry
                  errorMessage := some e } }
          outcome := WorkerOutcome.retryScheduled 5
          computeCalled := true } := by
  have hnle : ¬ maxTries ≤ jobTry := not_le.mpr hlt
  simp [processSummarizeJob, hjob, htext, hcache, summarizeHandleError, hnle]

theorem processSummarize_cache_hit (st : WorkerState) (jid now jobTry maxTries : Nat)
    (v : String) (job : Job) (compute : Except String String)
    (hjob : getJobById st.jobs jid = some job)
    (htext : job.inputData.text ≠ "")
    (hcache : truthy (cacheGet st.cache "summarize" job.inputData.text now) = some v) :
    processSummarizeJob jobTry maxTries jid now compute st
      = { state := { st with
            jobs := replaceJob (replaceJob st.jobs jid
              { job with
                  status := JobStatus.running
                  startedAt := some now
                  attemptCount := jobTry }) jid
              { job with
                  status := JobStatus.completed
                  startedAt := some now
                  attemptCount := jobTry
                  outputData := some (JobOutput.summaryOut v (some true))
                  completedAt := some now } }
          outcome := WorkerOutcome.completed true
          computeCalled := false } := by
  simp [processSummarizeJob, hjob, htext, hcache]

theorem processSummarize_compute_ok (st : WorkerState) (jid now jobTry maxTries : Nat)
    (summary : String) (job : Job)
    (hjob : getJobById st.jobs jid = some job)
    (htext : job.inputData.text ≠ "")
    (hcache : truthy (cacheGet st.cache "summarize" job.inputData.text now) = none) :
    processSummarizeJob jobTry maxTries jid now (Except.ok summary) st
      = { state := triggerJobWebhook
            { st with
              jobs := replaceJob (replaceJob st.jobs jid
                { job with
                    status := JobStatus.running
                    startedAt := some now
                    attemptCount := jobTry }) jid
                { job with
                    status := JobStatus.completed
                    startedAt := some now
                    attemptCount := jobTry
                    outputData := some (JobOutput.summaryOut summary none)
                    completedAt := some now }
              cache := cacheSet st.cache "summarize" job.inputData.text summary now 3600 }
            job.orgId job.id "completed"
          outcome := WorkerOutcome.completed false
          computeCalled := true } := by
  simp [processSummarizeJob, hjob, htext, hcache]

theorem processAnalyze_final_error (st : WorkerState) (jid now : Nat)
    (e : String) (job : Job)
    (hjob : getJobById st.jobs jid = some job)
    (htext : job.inputData.text ≠ "")
    (hcnt : 2 ≤ job.attemptCount) :
    processAnalyzeJob jid now (Except.error e) st
      = { state := triggerJobWebhook
            { st with
              jobs := replaceJob (replaceJob st.jobs jid
                { job with
                    status := JobStatus.running
                    startedAt := some now
                    attemptCount := job.attemptCount + 1 }) jid
                { job with
                    status := JobStatus.failed
                    startedAt := some now
                    attemptCount := job.attemptCount + 1
                    errorMessage := some e
                    completedAt := some now } }
            job.orgId job.id "failed"
          outcome := WorkerOutcome.failedReturn e
          computeCalled := true } := by
  have h3 : 3 ≤ job.attemptCount + 1 := by omega
  simp [processAnalyzeJob, hjob, htext, analyzeHandleError, h3]

theorem processAnalyze_computeCalled (st : WorkerState) (jid now : Nat)
    (compute : Except String String) (job : Job)
    (hjob : getJobById st.jobs jid = some job)
    (htext : job.inputData.text ≠ "") :
    (processAnalyzeJob jid now compute st).computeCalled = true := by
  cases compute with
  | ok a => simp [processAnalyzeJob, hjob, htext]
  | error e =>
    by_cases h3 : 3 ≤ job.attemptCount + 1
    · simp [processAnalyzeJob, hjob, htext, analyzeHandleError, h3]
    · simp [processAnalyzeJob, hjob, htext, analyzeHandleError, h3]

theorem triggerJobWebhook_of_configured (st : WorkerState) (orgId jobId : Nat)
    (ps : String) (o : Organisation) (url : String)
    (ho : st.orgs.find? (fun x => x.id == orgId) = some o)
    (hu : o.webhookUrl = some url) :
    triggerJobWebhook st orgId jobId ps
      = { st with triggers := st.triggers ++ [⟨orgId, jobId, ps⟩] } := by
  simp [triggerJobWebhook, ho, hu]

theorem triggerJobWebhook_preserves (st : WorkerState) (orgId jobId : Nat) (ps : String) :
    (triggerJobWebhook st orgId jobId ps).jobs = st.jobs
    ∧ (triggerJobWebhook st orgId jobId ps).credits = st.credits
    ∧ (triggerJobWebhook st orgId jobId ps).cache = st.cache := by
  unfold triggerJobWebhook
  split
  · exact ⟨rfl, rfl, rfl⟩
  · split
    · exact ⟨rfl, rfl, rfl⟩
    · exact ⟨rfl, rfl, rfl⟩

/-- C1 amended: a permanently failed SUMMARIZE job (final try, positive
credits in its input, existing account) produces exactly one REFUND
transaction restoring the recorded amount but starts no failure-notification
sequence; a permanently failed ANALYZE job (configured webhook) starts
exactly one failure-notification sequence but produces no refund. -/
theorem permanent_failure_effects :
    (∀ (st : WorkerState) (jid now maxTries : Nat) (e : String) (job : Job) (c : OrgCredit),
      getJobById st.jobs jid = some job →
      job.inputData.text ≠ "" →
      truthy (cacheGet st.cache "summarize" job.inputData.text now) = none →
      0 < job.inputData.credits →
      getCreditRecord st.credits job.orgId = some c →
        (processSummarizeJob maxTries maxTries jid now (Except.error e) st).state.credits.transactions
            = st.credits.transactions ++
              [⟨job.orgId, job.inputData.credits, TransactionType.refund, some job.id,
                "Refund for failed job: " ++ toString jid⟩]
        ∧ (processSummarizeJob maxTries maxTries jid now (Except.error e) st).state.triggers
            = st.triggers
        ∧ (getJobById (processSummarizeJob maxTries maxTries jid now
            (Except.error e) st).state.jobs jid).map (fun j => j.status)
            = some JobStatus.failed)
    ∧ (∀ (st : WorkerState) (jid now : Nat) (e : String) (job : Job)
        (o : Organisation) (url : String),
      getJobById st.jobs jid = some job →
      job.inputData.text ≠ "" →
      2 ≤ job.attemptCount →
      st.orgs.find? (fun x => x.id == job.orgId) = some o →
      o.webhookUrl = some url →
        (processAnalyzeJob jid now (Except.error e) st).state.credits = st.credits
        ∧ (processAnalyzeJob jid now (Except.error e) st).state.triggers
            = st.triggers ++ [⟨job.orgId, job.id, "failed"⟩]
        ∧ (getJobById (processAnalyzeJob jid now (Except.error e) st).state.jobs jid).map
            (fun j => j.status) = some JobStatus.failed) := by
  constructor
  · intro st jid now maxTries e job c hjob htext hcache hcred hacct
    have hid : job.id = jid := getJobById_some_id _ _ _ hjob
    rw [processSummarize_final_error st jid now maxTries maxTries e job c hjob htext
      hcache hcred hacct le_rfl]
    refine ⟨rfl, rfl, ?_⟩
    rw [getJobById_replace_self _ _ _ (by simpa using hid),
      getJobById_replace_self _ _ _ (by simpa using hid), hjob]
    rfl
  · intro st jid now e job o url hjob htext hcnt horg hurl
    have hid : job.id = jid := getJobById_some_id _ _ _ hjob
    have hfin := processAnalyze_final_error st jid now e job hjob htext hcnt
    refine ⟨?_, ?_, ?_⟩
    · rw [hfin]
      exact (triggerJobWebhook_preserves _ _ _ _).2.1
    · rw [hfin, triggerJobWebhook_of_configured _ _ _ _ o url (by simpa using horg) hurl]
    · rw [hfin]
      have hjobs : ∀ (w : WorkerState) (a b : Nat) (p : String),
          (triggerJobWebhook w a b p).jobs = w.jobs :=
        fun w a b p => (triggerJobWebhook_preserves w a b p).1
      simp only [hjobs]
      rw [getJobById_replace_self _ _ _ (by simpa using hid),
        getJobById_replace_self _ _ _ (by simpa using hid), hjob]
      rfl

/-- Witness for the amended C1 at the concrete counterexample states. -/
theorem permanent_failure_effects_witness :
    ((processSummarizeJob 3 3 1 5 (Except.error "boom") cexStateSummarize).state.triggers
        = cexStateSummarize.triggers
      ∧ (processSummarizeJob 3 3 1 5 (Except.error "boom")
          cexStateSummarize).state.credits.transactions
        = cexStateSummarize.credits.transactions ++
            [⟨1, 10, TransactionType.refund, some 1, "Refund for failed job: " ++ toString 1⟩])
    ∧ (processAnalyzeJob 2 5 (Except.error "boom") cexStateAnalyze).state.credits
        = cexStateAnalyze.credits := by
  have h1 := permanent_failure_effects.1 cexStateSummarize 1 5 3 "boom"
    ⟨1, 1, 1, JobType.summarize, JobStatus.pending, ⟨"hello", 10⟩, none, none, none, none, 2⟩
    ⟨1, 90⟩ rfl (by decide) rfl (by decide) rfl
  have h2 := permanent_failure_effects.2 cexStateAnalyze 2 5 "boom"
    ⟨2, 1, 1, JobType.analyze, JobStatus.pending, ⟨"hello", 25⟩, none, none, none, none, 2⟩
    ⟨1, some "https://hooks.example/in", some "s3cr3t"⟩ "https://hooks.example/in"
    rfl (by decide) (by decide) rfl rfl
  exact ⟨⟨h1.2.1, h1.1⟩, h2.1⟩

/-- C3 amended: JobService.fail_job itself performs no attempt_count check
and unconditionally marks the job FAILED with completed_at; the retry-versus-
terminal decision the claim describes is implemented in the worker's
except-branch: below max_tries the job goes back to PENDING with the error
recorded, and at max_tries it becomes FAILED with completed_at set. -/
theorem fail_retry_amended :
    (∀ (jobs : List Job) (jid : Nat) (e : String) (now : Nat) (j : Job),
      getJobById jobs jid = some j →
      getJobById (failJob jobs jid e now).2 jid
          = some { j with
              status := JobStatus.failed
              errorMessage := some e
              completedAt := some now })
    ∧ (∀ (st : WorkerState) (jid now jobTry maxTries : Nat) (e : String) (job : Job),
      getJobById st.jobs jid = some job →
      job.inputData.text ≠ "" →
      truthy (cacheGet st.cache "summarize" job.inputData.text now) = none →
      jobTry < maxTries →
        (processSummarizeJob jobTry maxTries jid now (Except.error e) st).outcome
            = WorkerOutcome.retryScheduled 5
        ∧ getJobById (processSummarizeJob jobTry maxTries jid now
            (Except.error e) st).state.jobs jid
            = some { job with
                status := JobStatus.pending
                startedAt := some now
                attemptCount := jobTry
                errorMessage := some e })
    ∧ (∀ (st : WorkerState) (jid now jobTry maxTries : Nat) (e : String) (job : Job)
        (c : OrgCredit),
      getJobById st.jobs jid = some job →
      job.inputData.text ≠ "" →
      truthy (cacheGet st.cache "summarize" job.inputData.text now) = none →
      0 < job.inputData.credits →
      getCreditRecord st.credits job.orgId = some c →
      maxTries ≤ jobTry →
        (processSummarizeJob jobTry maxTries jid now (Except.error e) st).outcome
            = WorkerOutcome.permanentFailure e
        ∧ getJobById (processSummarizeJob jobTry maxTries jid now
            (Except.error e) st).state.jobs jid
            = some { job with
                status := JobStatus.failed
                startedAt := some now
                attemptCount := jobTry
                errorMessage := some e
                completedAt := some now }) := by
  refine ⟨?_, ?_, ?_⟩
  · intro jobs jid e now j hj
    have hid : j.id = jid := getJobById_some_id _ _ _ hj
    simp only [failJob, hj]
    rw [getJobById_replace_self _ _ _ (by simpa using hid), hj]
    rfl
  · intro st jid now jobTry maxTries e job hjob htext hcache hlt
    have hid : job.id = jid := getJobById_some_id _ _ _ hjob
    rw [processSummarize_retry_error st jid now jobTry maxTries e job hjob htext hcache hlt]
    refine ⟨rfl, ?_⟩
    rw [getJobById_replace_self _ _ _ (by simpa using hid),
      getJobById_replace_self _ _ _ (by simpa using hid), hjob]
    rfl
  · intro st jid now jobTry maxTries e job c hjob htext hcache hcred hacct hge
    have hid : job.id = jid := getJobById_some_id _ _ _ hjob
    rw [processSummarize_final_error st jid now jobTry maxTries e job c hjob htext
      hcache hcred hacct hge]
    refine ⟨rfl, ?_⟩
    rw [getJobById_replace_self _ _ _ (by simpa using hid),
      getJobById_replace_self _ _ _ (by simpa using hid), hjob]
    rfl

/-- Witness for the amended C3: the retry path at try 1 of 3, and fail_job on
the concrete RUNNING job. -/
theorem fail_retry_amended_witness :
    (processSummarizeJob 1 3 1 5 (Except.error "boom") cexStateSummarize).outcome
        = WorkerOutcome.retryScheduled 5
    ∧ getJobById (failJob [cexRunningJob] 2 "boom" 9).2 2
        = some { cexRunningJob with
            status := JobStatus.failed
            errorMessage := some "boom"
            completedAt := some 9 } := by
  have h1 := fail_retry_amended.2.1 cexStateSummarize 1 5 1 3 "boom"
    ⟨1, 1, 1, JobType.summarize, JobStatus.pending, ⟨"hello", 10⟩, none, none, none, none, 2⟩
    rfl (by decide) rfl (by decide)
  have h2 := fail_retry_amended.1 [cexRunningJob] 2 "boom" 9 cexRunningJob rfl
  exact ⟨h1.1, h2⟩

/-! ### Claim C9: result cache -/

/-- Concrete worker state with an ANALYZE job and a warm, unexpired cache
entry for exactly its (job_type, input) pair. -/
def cexStateAnalyzeWarm : WorkerState :=
  { jobs := [⟨3, 1, 1, JobType.analyze, JobStatus.pending, ⟨"hello", 25⟩,
      none, none, none, none, 0⟩]
    credits := ⟨[⟨1, 75⟩], []⟩
    cache := [⟨"analyze", "hello", "cached analysis", 1000⟩]
    orgs := [⟨1, some "https://hooks.example/in", some "s3cr3t"⟩]
    triggers := [] }

/-- C9 counterexample: the ANALYZE worker never consults the result cache —
with a warm, unexpired cache entry for the identical (job_type, input) pair
it still invokes external compute and its output carries no cached marker. -/
theorem cache_bypass_analyze_cex :
    (cexStateAnalyzeWarm.cache.length = 1)
    ∧ ((processAnalyzeJob 3 5 (Except.ok "fresh") cexStateAnalyzeWarm).computeCalled = true)
    ∧ ((processAnalyzeJob 3 5 (Except.ok "fresh") cexStateAnalyzeWarm).computeCalled ≠ false)
    ∧ ((getJobById (processAnalyzeJob 3 5 (Except.ok "fresh")
        cexStateAnalyzeWarm).state.jobs 3).map (fun j => j.outputData)
        = some (some (JobOutput.analysisOut "fresh"))) := by
  refine ⟨by decide, by decide, by decide, by decide⟩

/-- C9 amended: only the SUMMARIZE worker consults the result cache: a hit
within TTL short-circuits compute and marks the output cached = true, and a
computed summary is cached for 3600 s so that an identical request within
the TTL hits; the ANALYZE worker never consults the cache and always invokes
external compute. -/
theorem result_cache_amended :
    (∀ (st : WorkerState) (jid now jobTry maxTries : Nat) (v : String) (job : Job)
        (compute : Except String String),
      getJobById st.jobs jid = some job →
      job.inputData.text ≠ "" →
      truthy (cacheGet st.cache "summarize" job.inputData.text now) = some v →
        (processSummarizeJob jobTry maxTries jid now compute st).computeCalled = false
        ∧ (processSummarizeJob jobTry maxTries jid now compute st).outcome
            = WorkerOutcome.completed true
        ∧ (getJobById (processSummarizeJob jobTry maxTries jid now compute st).state.jobs
            jid).map (fun j => j.outputData)
            = some (some (JobOutput.summaryOut v (some true))))
    ∧ (∀ (st : WorkerState) (jid now jobTry maxTries : Nat) (summary : String) (job : Job),
      getJobById st.jobs jid = some job →
      job.inputData.text ≠ "" →
      truthy (cacheGet st.cache "summarize" job.inputData.text now) = none →
      summary ≠ "" →
      ∀ now2 : Nat, now2 < now + 3600 →
        truthy (cacheGet (processSummarizeJob jobTry maxTries jid now
            (Except.ok summary) st).state.cache "summarize" job.inputData.text now2)
          = some summary)
    ∧ (∀ (st : WorkerState) (jid now : Nat) (compute : Except String String) (job : Job),
      getJobById st.jobs jid = some job →
      job.inputData.text ≠ "" →
      (processAnalyzeJob jid now compute st).computeCalled = true) := by
  refine ⟨?_, ?_, ?_⟩
  · intro st jid now jobTry maxTries v job compute hjob htext hcache
    have hid : job.id = jid := getJobById_some_id _ _ _ hjob
    rw [processSummarize_cache_hit st jid now jobTry maxTries v job compute hjob htext hcache]
    refine ⟨rfl, rfl, ?_⟩
    rw [getJobById_replace_self _ _ _ (by simpa using hid),
      getJobById_replace_self _ _ _ (by simpa using hid), hjob]
    rfl
  · intro st jid now jobTry maxTries summary job hjob htext hcache hsum now2 hnow2
    rw [processSummarize_compute_ok st jid now jobTry maxTries summary job hjob htext hcache]
    have hcacheq : ∀ (w : WorkerState) (a b : Nat) (p : String),
        (triggerJobWebhook w a b p).cache = w.cache :=
      fun w a b p => (triggerJobWebhook_preserves w a b p).2.2
    simp only [hcacheq]
    simp only [cacheSet, cacheGet]
    rw [List.find?_cons_of_pos _ (by simp [hnow2])]
    simp [truthy, hsum]
  · intro st jid now compute job hjob htext
    exact processAnalyze_computeCalled st jid now compute job hjob htext

/-- Witness for the amended C9: a summarize run at try 1 populates the cache
and an identical request 100 s later hits it; the warm-cache analyze run
still computes. -/
theorem result_cache_amended_witness :
    truthy (cacheGet (processSummarizeJob 1 3 1 5 (Except.ok "sum")
        cexStateSummarize).state.cache "summarize" "hello" 105) = some "sum"
    ∧ (processAnalyzeJob 3 5 (Except.ok "fresh") cexStateAnalyzeWarm).computeCalled = true := by
  have h1 := result_cache_amended.2.1 cexStateSummarize 1 5 1 3 "sum"
    ⟨1, 1, 1, JobType.summarize, JobStatus.pending, ⟨"hello", 10⟩, none, none, none, none, 2⟩
    rfl (by decide) rfl (by decide) 105 (by decide)
  have h2 := result_cache_amended.2.2 cexStateAnalyzeWarm 3 5 (Except.ok "fresh")
    ⟨3, 1, 1, JobType.analyze, JobStatus.pending, ⟨"hello", 25⟩, none, none, none, none, 0⟩
    rfl (by decide)
  exact ⟨h1, h2⟩

/-! ## Rate limiter (app/services/rate_limiter.py) -/

/-- RateLimiter.limit: 100 requests per window. -/
def rlLimit : Nat := 100

/-- RateLimiter.window: 900 seconds. -/
def rlWindow : Int := 900

/-- ZREMRANGEBYSCORE key 0 (now - window): drops every timestamp t with
0 ≤ t ≤ now - window. -/
def removeOldEntries (ts : List Int) (now : Int) : List Int :=
  ts.filter (fun t => !(decide (0 ≤ t) && decide (t ≤ now - rlWindow)))

/-- ZRANGE key 0 0: the lowest-scored member of the sorted set. -/
def oldestEntry : List Int → Option Int
  | [] => none
  | x :: xs => some (xs.foldl min x)

/-- ZADD key (str(now): now): members are keyed by the timestamp string, so
adding an already-present timestamp leaves the set unchanged. -/
def zaddTimestamp (ts : List Int) (now : Int) : List Int :=
  if ts.contains now then ts else ts ++ [now]

/-- RateLimiter.is_allowed: removes expired timestamps, then either denies
with retry_after = max(window - (now - oldest), 1) when the remaining count
has reached the limit, or admits and records now.  Returns
(allowed, retry_after, resulting timestamp set). -/
def isAllowed (ts : List Int) (now : Int) : Bool × Int × List Int :=
  let remaining := removeOldEntries ts now
  if rlLimit ≤ remaining.length then
    match oldestEntry remaining with
    | some o => (false, max (rlWindow - (now - o)) 1, remaining)
    | none => (false, max rlWindow 1, remaining)
  else
    (true, 0, zaddTimestamp remaining now)

/-- A sequence of sequential is_allowed checks at the given times, returning
each check's (allowed, retry_after) pair. -/
def runChecks : List Int → List Int → List (Bool × Int)
  | [], _ => []
  | now :: rest, ts =>
    let r := isAllowed ts now
    (r.1, r.2.1) :: runChecks rest r.2.2

theorem removeOldEntries_of_fresh (ts : List Int) (now t0 : Int)
    (hts : ∀ t ∈ ts, t0 ≤ t) (hnow : now < t0 + rlWindow) :
    removeOldEntries ts now = ts := by
  apply List.filter_eq_self.mpr
  intro t ht
  have h1 : t0 ≤ t := hts t ht
  have h2 : ¬ (t ≤ now - rlWindow) := by
    simp only [rlWindow] at hnow ⊢
    omega
  simp [h2]

theorem isAllowed_denied_retry_pos (ts : List Int) (now : Int)
    (h : (isAllowed ts now).1 = false) : 1 ≤ (isAllowed ts now).2.1 := by
  revert h
  simp only [isAllowed]
  split
  · split
    · intro _
      exact le_max_right _ _
    · intro _
      exact le_max_right _ _
  · intro h
    simp at h

theorem runChecks_denied_pos (chk : List Int) : ∀ (s : List Int),
    ∀ r ∈ runChecks chk s, r.1 = false → 1 ≤ r.2 := by
  induction chk with
  | nil =>
    intro s r hr
    simp [runChecks] at hr
  | cons now rest ih =>
    intro s r hr hb
    simp only [runChecks, List.mem_cons] at hr
    rcases hr with h | h
    · subst h
      exact isAllowed_denied_retry_pos s now hb
    · exact ih _ r h hb

theorem runChecks_counts (chk : List Int) : ∀ (s : List Int) (t0 : Int),
    chk.Pairwise (· < ·) →
    (∀ t ∈ chk, t0 ≤ t ∧ t < t0 + rlWindow) →
    (∀ t ∈ s, t0 ≤ t) →
    (∀ t ∈ s, ∀ u ∈ chk, t < u) →
    (runChecks chk s).countP (fun r => r.1)
        = min chk.length (rlLimit - s.length)
    ∧ (runChecks chk s).countP (fun r => !r.1)
        = chk.length - min chk.length (rlLimit - s.length) := by
  induction chk with
  | nil =>
    intro s t0 _ _ _ _
    simp [runChecks]
  | cons now rest ih =>
    intro s t0 hpw hbnd hs hlt
    rw [List.pairwise_cons] at hpw
    have hnowbnd := hbnd now (List.mem_cons_self now rest)
    have hrem : removeOldEntries s now = s :=
      removeOldEntries_of_fresh s now t0 hs hnowbnd.2
    by_cases hlen : rlLimit ≤ s.length
    · have h1 : (isAllowed s now).1 = false ∧ (isAllowed s now).2.2 = s := by
        simp only [isAllowed, hrem, if_pos hlen]
        cases h : oldestEntry s <;> simp
      have hih := ih s t0 hpw.2 (fun t ht => hbnd t (List.mem_cons_of_mem now ht)) hs
        (fun t ht u hu => hlt t ht u (List.mem_cons_of_mem now hu))
      simp only [runChecks, List.countP_cons, h1.1, h1.2, hih.1, hih.2,
        List.length_cons]
      simp
      omega
    · have hnmem : now ∉ s := by
        intro hmem
        exact lt_irrefl now (hlt now hmem now (List.mem_cons_self now rest))
      have hcont : s.contains now = false := by
        simp only [List.contains_eq_any_beq, List.any_eq_false]
        intro x hx
        have : x ≠ now := fun hcon => hnmem (hcon ▸ hx)
        simp [beq_iff_eq]
        intro hcon
        exact absurd hcon.symm this
      have h1 : isAllowed s now = (true, 0, s ++ [now]) := by
        simp only [isAllowed, hrem, if_neg hlen, zaddTimestamp, hcont]
        simp
      have hs' : ∀ t ∈ s ++ [now], t0 ≤ t := by
        intro t ht
        rcases List.mem_append.mp ht with h | h
        · exact hs t h
        · simp at h
          subst h
          exact hnowbnd.1
      have hlt' : ∀ t ∈ s ++ [now], ∀ u ∈ rest, t < u := by
        intro t ht u hu
        rcases List.mem_append.mp ht with h | h
        · exact hlt t h u (List.mem_cons_of_mem now hu)
        · simp at h
          subst h
          exact hpw.1 u hu
      have hih := ih (s ++ [now]) t0 hpw.2
        (fun t ht => hbnd t (List.mem_cons_of_mem now ht)) hs' hlt'
      simp only [runChecks, List.countP_cons, h1, hih.1, hih.2,
        List.length_append, List.length_cons]
      simp
      omega

/-- C6: the sliding-window limiter removes expired timestamps on each check;
with the remaining count at the limit it denies with retry_after =
max(window - (now - oldest), 1) and otherwise admits and inserts now; and 110
sequential checks at strictly increasing times within one window, starting
from an empty window, yield exactly 100 allowed and 10 denied, every denial
with retry_after > 0. -/
theorem rate_limiter_spec :
    (∀ (ts : List Int) (now : Int),
      rlLimit ≤ (removeOldEntries ts now).length →
      ∃ o, oldestEntry (removeOldEntries ts now) = some o
        ∧ isAllowed ts now
            = (false, max (rlWindow - (now - o)) 1, removeOldEntries ts now))
    ∧ (∀ (ts : List Int) (now : Int),
      (removeOldEntries ts now).length < rlLimit →
      isAllowed ts now = (true, 0, zaddTimestamp (removeOldEntries ts now) now))
    ∧ (∀ (chk : List Int) (t0 : Int),
      chk.length = 110 →
      chk.Pairwise (· < ·) →
      (∀ t ∈ chk, t0 ≤ t ∧ t < t0 + rlWindow) →
        (runChecks chk []).countP (fun r => r.1) = 100
        ∧ (runChecks chk []).countP (fun r => !r.1) = 10
        ∧ (∀ r ∈ runChecks chk [], r.1 = false → 0 < r.2)) := by
  refine ⟨?_, ?_, ?_⟩
  · intro ts now hlen
    cases h : oldestEntry (removeOldEntries ts now) with
    | none =>
      exfalso
      cases hrem : removeOldEntries ts now with
      | nil =>
        rw [hrem] at hlen
        simp [rlLimit] at hlen
      | cons x xs =>
        rw [hrem] at h
        simp [oldestEntry] at h
    | some o =>
      refine ⟨o, rfl, ?_⟩
      simp only [isAllowed, if_pos hlen, h]
  · intro ts now hlen
    simp only [isAllowed, if_neg (not_le.mpr hlen)]
  · intro chk t0 hlen hpw hbnd
    have hc := runChecks_counts chk [] t0 hpw hbnd (by simp) (by simp)
    refine ⟨?_, ?_, ?_⟩
    · rw [hc.1, hlen]
      rfl
    · rw [hc.2, hlen]
      rfl
    · intro r hr hb
      exact lt_of_lt_of_le Int.zero_lt_one (runChecks_denied_pos chk [] r hr hb)

/-- Witness for C6 at the concrete check times 0,1,...,109. -/
theorem rate_limiter_spec_witness :
    (runChecks ((List.range 110).map (fun (i : Nat) => (i : Int))) []).countP (fun r => r.1) = 100
    ∧ (runChecks ((List.range 110).map (fun (i : Nat) => (i : Int))) []).countP (fun r => !r.1)
        = 10 := by
  have hpw : ((List.range 110).map (fun (i : Nat) => (i : Int))).Pairwise (· < ·) :=
    List.Pairwise.map (fun (i : Nat) => (i : Int)) (fun a b h => by simpa using Int.ofNat_lt.mpr h)
      (List.pairwise_lt_range 110)
  have hbnd : ∀ t ∈ (List.range 110).map (fun (i : Nat) => (i : Int)),
      (0 : Int) ≤ t ∧ t < 0 + rlWindow := by
    intro t ht
    simp only [List.mem_map, List.mem_range] at ht
    obtain ⟨i, hi, rfl⟩ := ht
    simp only [rlWindow]
    constructor
    · exact_mod_cast Nat.zero_le i
    · have h110 : (i : Int) < 110 := by exact_mod_cast hi
      omega
  have h := rate_limiter_spec.2.2 ((List.range 110).map (fun (i : Nat) => (i : Int))) 0
    (by simp) hpw hbnd
  exact ⟨h.1, h.2.1⟩

/-! ## Webhook delivery (app/services/webhook_service.py) -/

/-- Result of one HTTP POST attempt: a status code, or a network error
caught by the except-branch. -/
inductive AttemptOutcome where
  | response (code : Nat)
  | netError (msg : String)
deriving DecidableEq, Repr

/-- WebhookDelivery.status values used by send_webhook. -/
inductive DeliveryStatus where
  | pending
  | delivered
  | failed
deriving DecidableEq, Repr

/-- The mutable fields of one webhook_deliveries row. -/
structure WebhookDelivery where
  status : DeliveryStatus
  attempts : Nat
  responseCode : Option Nat
  errorMessage : Option String
  nextRetryAt : Option Nat
deriving DecidableEq, Repr

/-- WEBHOOK_DELAYS = [5, 25, 125]. -/
def webhookDelays : List Nat := [5, 25, 125]

/-- MAX_RETRIES = 3. -/
def webhookMaxRetries : Nat := 3

/-- The body of one loop iteration up to the success check: a 2xx response
marks the delivery delivered (returning true); a non-2xx response records
response_code and an "HTTP <code>" error; a network error records only the
error message. -/
def webhookStep (o : AttemptOutcome) (d : WebhookDelivery) : Bool × WebhookDelivery :=
  match o with
  | AttemptOutcome.response code =>
    let d2 := { d with responseCode := some code }
    if 200 ≤ code ∧ code < 300 then
      (true, { d2 with status := DeliveryStatus.delivered })
    else
      (false, { d2 with errorMessage := some ("HTTP " ++ toString code) })
  | AttemptOutcome.netError msg =>
    (false, { d with errorMessage := some msg })

/-- The `for attempt in range(MAX_RETRIES)` loop of send_webhook, recursing
over the list of remaining attempt indices.  Each iteration first commits
attempts = attempt + 1; a success returns immediately; otherwise, before the
last attempt, next_retry_at is scheduled and the loop sleeps for
WEBHOOK_DELAYS[attempt] (collected in the returned delay list); on the last
attempt the delivery is marked failed and the loop ends — no further
attempts ever happen. -/
def webhookAttemptLoop (outcomes : Nat → AttemptOutcome) (now : Nat)
    (d : WebhookDelivery) : List Nat → WebhookDelivery × List Nat
  | [] => (d, [])
  | attempt :: restAttempts =>
    let step := webhookStep (outcomes attempt) { d with attempts := attempt + 1 }
    if step.1 then
      (step.2, [])
    else if attempt < webhookMaxRetries - 1 then
      let delay := webhookDelays.getD attempt 0
      let r := webhookAttemptLoop outcomes (now + delay)
        { step.2 with nextRetryAt := some (now + delay), status := DeliveryStatus.pending }
        restAttempts
      (r.1, delay :: r.2)
    else
      ({ step.2 with status := DeliveryStatus.failed }, [])

/-- The delivery record created (pending, attempts = 0) before the first
network attempt. -/
def initialDelivery : WebhookDelivery :=
  { status := DeliveryStatus.pending
    attempts := 0
    responseCode := none
    errorMessage := none
    nextRetryAt := none }

/-- send_webhook: creates the pending delivery record, then runs the retry
loop.  Returns the final delivery record and the list of inter-attempt
delays slept. -/
def sendWebhook (outcomes : Nat → AttemptOutcome) (start : Nat) :
    WebhookDelivery × List Nat :=
  webhookAttemptLoop outcomes start initialDelivery (List.range webhookMaxRetries)

/-- Whether an attempt outcome is a 2xx response. -/
def is2xx (o : AttemptOutcome) : Bool :=
  match o with
  | AttemptOutcome.response code => decide (200 ≤ code ∧ code < 300)
  | AttemptOutcome.netError _ => false

theorem webhookStep_fst (o : AttemptOutcome) (d : WebhookDelivery) :
    (webhookStep o d).1 = is2xx o := by
  cases o with
  | response code =>
    by_cases hc : 200 ≤ code ∧ code < 300
    · simp [webhookStep, is2xx, hc]
    · simp [webhookStep, is2xx, hc]
  | netError msg => rfl

theorem webhookStep_attempts (o : AttemptOutcome) (d : WebhookDelivery) :
    (webhookStep o d).2.attempts = d.attempts := by
  cases o with
  | response code =>
    by_cases hc : 200 ≤ code ∧ code < 300
    · simp [webhookStep, hc]
    · simp [webhookStep, hc]
  | netError msg => rfl

theorem webhookStep_nextRetryAt (o : AttemptOutcome) (d : WebhookDelivery) :
    (webhookStep o d).2.nextRetryAt = d.nextRetryAt := by
  cases o with
  | response code =>
    by_cases hc : 200 ≤ code ∧ code < 300
    · simp [webhookStep, hc]
    · simp [webhookStep, hc]
  | netError msg => rfl

theorem webhookStep_status_of_fail (o : AttemptOutcome) (d : WebhookDelivery)
    (h : is2xx o = false) : (webhookStep o d).2.status = d.status := by
  cases o with
  | response code =>
    simp only [is2xx, decide_eq_false_iff_not] at h
    simp [webhookStep, h]
  | netError msg => rfl

theorem webhookStep_status_of_success (o : AttemptOutcome) (d : WebhookDelivery)
    (h : is2xx o = true) : (webhookStep o d).2.status = DeliveryStatus.delivered := by
  cases o with
  | response code =>
    simp only [is2xx, decide_eq_true_eq] at h
    simp [webhookStep, h]
  | netError msg => simp [is2xx] at h

theorem sendWebhook_first_success (outcomes : Nat → AttemptOutcome) (start : Nat)
    (i : Nat) (hi : i < 3) (h : is2xx (outcomes i) = true)
    (hprev : ∀ j, j < i → is2xx (outcomes j) = false) :
    (sendWebhook outcomes start).1.status = DeliveryStatus.delivered
    ∧ (sendWebhook outcomes start).1.attempts = i + 1
    ∧ (sendWebhook outcomes start).2 = webhookDelays.take i := by
  have hrange : List.range webhookMaxRetries = [0, 1, 2] := rfl
  interval_cases i
  · simp [sendWebhook, hrange, webhookAttemptLoop, webhookStep_fst, h,
      webhookStep_status_of_success _ _ h, webhookStep_attempts, webhookDelays]
  · have h0 := hprev 0 (by omega)
    simp [sendWebhook, hrange, webhookAttemptLoop, webhookStep_fst, h, h0,
      webhookStep_status_of_success _ _ h, webhookStep_attempts, webhookDelays,
      webhookMaxRetries]
  · have h0 := hprev 0 (by omega)
    have h1 := hprev 1 (by omega)
    simp [sendWebhook, hrange, webhookAttemptLoop, webhookStep_fst, h, h0, h1,
      webhookStep_status_of_success _ _ h, webhookStep_attempts, webhookDelays,
      webhookMaxRetries]

theorem sendWebhook_all_fail (outcomes : Nat → AttemptOutcome) (start : Nat)
    (h : ∀ i, i < 3 → is2xx (outcomes i) = false) :
    (sendWebhook outcomes start).1.status = DeliveryStatus.failed
    ∧ (sendWebhook outcomes start).1.attempts = 3
    ∧ (sendWebhook outcomes start).2 = [5, 25]
    ∧ (sendWebhook outcomes start).1.nextRetryAt = some (start + 5 + 25) := by
  have hrange : List.range webhookMaxRetries = [0, 1, 2] := rfl
  have h0 := h 0 (by omega)
  have h1 := h 1 (by omega)
  have h2 := h 2 (by omega)
  simp [sendWebhook, hrange, webhookAttemptLoop, webhookStep_fst, h0, h1, h2,
    webhookStep_attempts, webhookStep_nextRetryAt, webhookDelays, webhookMaxRetries]

/-- C8: the delivery record starts pending with attempts = 0 before the first
network attempt; at most 3 attempts are made, with inter-attempt delays
drawn from the fixed sequence [5, 25, 125]; the first 2xx response marks the
delivery delivered and stops; when every attempt fails, next_retry_at is
scheduled after each non-final attempt and after the third failed attempt
the delivery is marked failed and never retried again. -/
theorem webhook_retry_spec (outcomes : Nat → AttemptOutcome) (start : Nat) :
    (initialDelivery.status = DeliveryStatus.pending ∧ initialDelivery.attempts = 0)
    ∧ (sendWebhook outcomes start).1.attempts ≤ 3
    ∧ (∀ i, i < 3 → is2xx (outcomes i) = true →
        (∀ j, j < i → is2xx (outcomes j) = false) →
        (sendWebhook outcomes start).1.status = DeliveryStatus.delivered
        ∧ (sendWebhook outcomes start).1.attempts = i + 1
        ∧ (sendWebhook outcomes start).2 = webhookDelays.take i)
    ∧ ((∀ i, i < 3 → is2xx (outcomes i) = false) →
        (sendWebhook outcomes start).1.status = DeliveryStatus.failed
        ∧ (sendWebhook outcomes start).1.attempts = 3
        ∧ (sendWebhook outcomes start).2 = [5, 25]
        ∧ (sendWebhook outcomes start).1.nextRetryAt = some (start + 5 + 25)) := by
  refine ⟨⟨rfl, rfl⟩, ?_, ?_, ?_⟩
  · by_cases h0 : is2xx (outcomes 0) = true
    · rw [(sendWebhook_first_success outcomes start 0 (by omega) h0
        (fun j hj => absurd hj (Nat.not_lt_zero j))).2.1]
      omega
    · have h0f : is2xx (outcomes 0) = false := by simpa using h0
      by_cases h1 : is2xx (outcomes 1) = true
      · rw [(sendWebhook_first_success outcomes start 1 (by omega) h1
          (fun j hj => by interval_cases j; exact h0f)).2.1]
        omega
      · have h1f : is2xx (outcomes 1) = false := by simpa using h1
        have hpf2 : ∀ j, j < 2 → is2xx (outcomes j) = false := by
          intro j hj
          interval_cases j
          · exact h0f
          · exact h1f
        by_cases h2 : is2xx (outcomes 2) = true
        · rw [(sendWebhook_first_success outcomes start 2 (by omega) h2 hpf2).2.1]
        · have h2f : is2xx (outcomes 2) = false := by simpa using h2
          have hpf3 : ∀ i, i < 3 → is2xx (outcomes i) = false := by
            intro i hi
            interval_cases i
            · exact h0f
            · exact h1f
            · exact h2f
          rw [(sendWebhook_all_fail outcomes start hpf3).2.1]
  · intro i hi h hprev
    exact sendWebhook_first_success outcomes start i hi h hprev
  · intro h
    exact sendWebhook_all_fail outcomes start h

/-- Witness for C8: an endpoint that always returns 500 yields exactly 3
attempts at delays 5 s and 25 s, then delivery status failed. -/
theorem webhook_retry_spec_witness :
    (sendWebhook (fun _ => AttemptOutcome.response 500) 0).1.status = DeliveryStatus.failed
    ∧ (sendWebhook (fun _ => AttemptOutcome.response 500) 0).1.attempts = 3
    ∧ (sendWebhook (fun _ => AttemptOutcome.response 500) 0).2 = [5, 25] := by
  have h := (webhook_retry_spec (fun _ => AttemptOutcome.response 500) 0).2.2.2
    (fun i _ => by decide)
  exact ⟨h.1, h.2.1, h.2.2.1⟩

end NexusAPI
